import Mathlib

/-!
Verification of the DriveWiper core: the hdparm identity parser
(`Docker/wiper/parsers/hdparm_parser.py`), the dual-backend audit sink
(`Docker/wiper/logging_manager.py`), and the erase driver / wipe
orchestrator record assembly (`Docker/wipe_drive.py`).

The Python code is shallowly embedded: external collaborators (process
execution, the raw device, the database and the filesystem) are passed in
as explicit oracles, and an exception raised by a collaborator is modelled
by the corresponding oracle flag being false.  Machine behaviour that the
code observes (string operations, dict key insertion order) is modelled
explicitly.
-/

/-! ## Python string primitives (ASCII-faithful models) -/

/-- Whitespace characters stripped by Python `str.strip()`. -/
def pyIsSpace (c : Char) : Bool :=
  c = ' ' || c = '\t' || c = '\n' || c = '\r' || c = '\x0b' || c = '\x0c'

/-- `str.strip()` on a character list. -/
def pyStripList (l : List Char) : List Char :=
  ((l.dropWhile pyIsSpace).reverse.dropWhile pyIsSpace).reverse

/-- Python `s.strip()`. -/
def pyStrip (s : String) : String := ⟨pyStripList s.toList⟩

/-- Python `s.lower()` (ASCII case folding). -/
def pyLower (s : String) : String := ⟨s.toList.map Char.toLower⟩

/-- Python `s.startswith(p)`. -/
def pyStartsWith (s p : String) : Bool := p.toList.isPrefixOf s.toList

/-- Helper for substring membership: `pat` occurs in the list. -/
def pyContainsAux (pat : List Char) : List Char → Bool
  | [] => pat.isEmpty
  | c :: rest => pat.isPrefixOf (c :: rest) || pyContainsAux pat rest

/-- Python `pat in s` (substring containment). -/
def pyContains (s pat : String) : Bool := pyContainsAux pat.toList s.toList

/-- Python `s.split(label, 1)[1]` when `label` is a prefix of `s`:
the text after the label. -/
def pyAfterLabel (s label : String) : String := ⟨s.toList.drop label.toList.length⟩

/-- Python `s.split(":", 1)[1]` when `s` contains a colon:
the text after the first colon. -/
def pyAfterFirstColon (s : String) : String :=
  ⟨(s.toList.dropWhile (fun c => !(c = ':'))).drop 1⟩

/-- Helper for `str.splitlines()`: accumulates the current line reversed. -/
def pySplitlinesAux : List Char → List Char → List String
  | [], acc => if acc.isEmpty then [] else [⟨acc.reverse⟩]
  | '\r' :: '\n' :: rest, acc => String.mk acc.reverse :: pySplitlinesAux rest []
  | '\r' :: rest, acc => String.mk acc.reverse :: pySplitlinesAux rest []
  | '\n' :: rest, acc => String.mk acc.reverse :: pySplitlinesAux rest []
  | c :: rest, acc => pySplitlinesAux rest (c :: acc)

/-- Python `text.splitlines()` (newline variants `\n`, `\r`, `\r\n`;
no trailing empty line for a trailing newline). -/
def pySplitlines (s : String) : List String := pySplitlinesAux s.toList []

/-! ## Identity parser (`parsers/hdparm_parser.py`, `parse_hdparm_identity`) -/

/-- The structured record built by `parse_hdparm_identity`.  A Python dict
key that may be absent is an `Option` field (`none` = key not present). -/
structure HdparmData where
  raw : String
  model : Option String := none
  serial : Option String := none
  firmware : Option String := none
  reported_size_m10 : Option String := none
  security_supported : Option Bool := none
  security_enabled : Option Bool := none
  security_locked : Option Bool := none
  security_frozen : Option Bool := none
  enhanced_erase_supported : Option Bool := none
  erase_time_raw : Option String := none
deriving DecidableEq

/-- The per-line loop state of `parse_hdparm_identity`: the record built so
far and the `in_security` flag. -/
structure ParseState where
  data : HdparmData
  in_security : Bool
deriving DecidableEq

/-- Lines 21–32 of `hdparm_parser.py`: the basic-identity `if/elif` chain on
`stripped` followed by the best-effort size check (`split(":", 1)` always
yields two parts there because the matched label contains a colon). -/
def parseIdentityFields (d : HdparmData) (stripped : String) : HdparmData :=
  let d1 :=
    if pyStartsWith stripped "Model Number:" then
      { d with model := some (pyStrip (pyAfterLabel stripped "Model Number:")) }
    else if pyStartsWith stripped "Serial Number:" then
      { d with serial := some (pyStrip (pyAfterLabel stripped "Serial Number:")) }
    else if pyStartsWith stripped "Firmware Revision:" then
      { d with firmware := some (pyStrip (pyAfterLabel stripped "Firmware Revision:")) }
    else d
  if pyContains stripped "device size with M = 1000*1000:" then
    { d1 with reported_size_m10 := some (pyStrip (pyAfterFirstColon stripped)) }
  else d1

/-- Lines 46–66 of `hdparm_parser.py`: the flag updates applied to a line
processed inside the security block (`setdefault` for `erase_time_raw`). -/
def parseSecurityFields (d : HdparmData) (stripped : String) : HdparmData :=
  let lower := pyLower stripped
  let d1 :=
    if pyContains lower "supported" then
      { d with security_supported := some (!(pyContains lower "not")) }
    else d
  let d2 :=
    if pyStartsWith lower "enabled" then
      { d1 with security_enabled := some (!(pyContains lower "not")) }
    else d1
  let d3 :=
    if pyStartsWith lower "locked" then
      { d2 with security_locked := some (!(pyContains lower "not")) }
    else d2
  let d4 :=
    if pyStartsWith lower "frozen" then
      { d3 with security_frozen := some (!(pyContains lower "not")) }
    else d3
  let d5 :=
    if pyContains lower "enhanced erase" then
      { d4 with enhanced_erase_supported := some (!(pyContains lower "not")) }
    else d4
  if (pyContains lower "erase time" || pyContains lower "security erase unit") &&
      d5.erase_time_raw = none then
    { d5 with erase_time_raw := some stripped }
  else d5

/-- One iteration of the `for line in lines` loop of `parse_hdparm_identity`
(lines 17–66): identity fields, then the `Security:` header check (which
`continue`s), then the security block with its indentation-based exit. -/
def parseHdparmLine (st : ParseState) (line : String) : ParseState :=
  let stripped := pyStrip line
  let d := parseIdentityFields st.data stripped
  if pyStartsWith stripped "Security:" then
    { data := d, in_security := true }
  else if st.in_security then
    if !(stripped = "") && !(pyStartsWith line " " || pyStartsWith line "\t") then
      { data := d, in_security := false }
    else
      { data := parseSecurityFields d stripped, in_security := true }
  else
    { data := d, in_security := st.in_security }

/-- The loop's initial state: `data = \x7b"raw": text\x7d`, `in_security = False`. -/
def initParseState (text : String) : ParseState :=
  { data := { raw := text }, in_security := false }

/-- `parse_hdparm_identity(text)`: fold the per-line step over
`text.splitlines()` and return the accumulated record. -/
def parse_hdparm_identity (text : String) : HdparmData :=
  ((pySplitlines text).foldl parseHdparmLine (initParseState text)).data

/-- The successive values of the `in_security` flag while the parser
consumes a line list (initial state first, final state last). -/
def parseStatesAux (st : ParseState) : List String → List Bool
  | [] => [st.in_security]
  | l :: ls => st.in_security :: parseStatesAux (parseHdparmLine st l) ls

/-- The `in_security` trace of `parse_hdparm_identity` on `text`. -/
def parseStates (text : String) : List Bool :=
  parseStatesAux (initParseState text) (pySplitlines text)

/-- The parser was inside the security block, left it, and was inside it
again later (the situation claim C8 says cannot happen). -/
def securityReentered (text : String) : Prop :=
  ∃ i j k : Nat, i < j ∧ j < k ∧
    (parseStates text).get? i = some true ∧
    (parseStates text).get? j = some false ∧
    (parseStates text).get? k = some true

/-! ## Audit sink (`wiper/logging_manager.py`, `log_wipe_event`) -/

/-- Per-call collaborator behaviour: `db_ok` is whether the database insert
of this call would succeed (false = `_db_logger.log` raises), `file_ok`
whether the fallback file append would succeed (false = `_file_logger.log`
raises). -/
structure CallEnv where
  db_ok : Bool
  file_ok : Bool
deriving DecidableEq

/-- Observable side effects of one `log_wipe_event` call, in order:
an attempted database insert of the event, an attempted fallback-file
append of the event, and the console emission of the full event content
(the `[ERROR] FATAL` path). -/
inductive LogEffect (α : Type) where
  | dbInsert (e : α)
  | fileAppend (e : α)
  | consoleEmit (e : α)
deriving DecidableEq

/-- The initial value of the module-level `_use_db` flag (line 10). -/
def init_use_db : Bool := true

/-- `log_wipe_event(event)` (lines 13–42), given the process-wide latch
`use_db`, the `DatabaseLogger.enabled` configuration flag and this call's
collaborator behaviour.  Returns the latch after the call and the ordered
effect trace.  The function is total for every input: both `except`
handlers of the source return normally, so the model never fails. -/
def log_wipe_event {α : Type} (db_enabled : Bool) (env : CallEnv) (event : α)
    (use_db : Bool) : Bool × List (LogEffect α) :=
  if use_db && db_enabled then
    if env.db_ok then
      (use_db, [LogEffect.dbInsert event])
    else
      if env.file_ok then
        (false, [LogEffect.dbInsert event, LogEffect.fileAppend event])
      else
        (false, [LogEffect.dbInsert event, LogEffect.fileAppend event,
                 LogEffect.consoleEmit event])
  else
    if env.file_ok then
      (use_db, [LogEffect.fileAppend event])
    else
      (use_db, [LogEffect.fileAppend event, LogEffect.consoleEmit event])

/-- The latch after one `log_wipe_event` call (event content irrelevant). -/
def persistLatch (db_enabled : Bool) (use_db : Bool) (env : CallEnv) : Bool :=
  (log_wipe_event db_enabled env () use_db).1

/-- The latch after a whole sequence of `log_wipe_event` calls in one
process, starting from the module-initial `_use_db = True`. -/
def runLatch (db_enabled : Bool) (envs : List CallEnv) : Bool :=
  envs.foldl (persistLatch db_enabled) init_use_db

/-! ## Erase driver (`wipe_drive.py`, `ata_secure_erase` and the dry run) -/

/-- What the process-execution collaborator returns for one command:
`subprocess.CompletedProcess`'s exit status and captured stderr. -/
structure CmdResult where
  returncode : Int
  stderr : String
deriving DecidableEq

/-- One entry of the `steps` list.  Each Python step dict carries only some
of these keys: a real step has `step`, `cmd`, `returncode`, `stderr`;
a simulated step has `step`, `simulated`.  `none` = key absent. -/
structure StepEntry where
  step : String
  simulated : Option Bool := none
  cmd : Option String := none
  returncode : Option Int := none
  stderr : Option String := none
deriving DecidableEq

/-- The keys present in a step dict, in the source's insertion order. -/
def StepEntry.keys (s : StepEntry) : List String :=
  ["step"] ++ (if s.simulated.isSome then ["simulated"] else []) ++
    (if s.cmd.isSome then ["cmd"] else []) ++
    (if s.returncode.isSome then ["returncode"] else []) ++
    (if s.stderr.isSome then ["stderr"] else [])

/-- The `method_result` dict: `dry_run` and `error` keys may be absent. -/
structure MethodResult where
  device : String
  method : String
  dry_run : Option Bool := none
  steps : List StepEntry
  success : Bool
  error : Option String := none
deriving DecidableEq

/-- The top-level keys of a `method_result` dict in the source's insertion
order (`error`, when present, is inserted after `success`; the dry-run
literal repeats `"dry_run"`, which in a Python dict keeps the first
position). -/
def MethodResult.keys (m : MethodResult) : List String :=
  ["device", "method"] ++ (if m.dry_run.isSome then ["dry_run"] else []) ++
    ["steps", "success"] ++ (if m.error.isSome then ["error"] else [])

/-- The step-1 command of `ata_secure_erase` (line 152). -/
def set_pass_cmd (password device : String) : List String :=
  ["hdparm", "--user-master", "u", "--security-set-pass", password, device]

/-- The step-2 command of `ata_secure_erase` (line 164). -/
def security_erase_cmd (password device : String) : List String :=
  ["hdparm", "--user-master", "u", "--security-erase", password, device]

/-- `ata_secure_erase(device, password)` (lines 138–176), with the process
execution collaborator `run` as an oracle (`run_cmd` does not raise on a
non-zero exit). -/
def ata_secure_erase (run : List String → CmdResult) (device : String)
    (password : String) : MethodResult :=
  let cp1 := run (set_pass_cmd password device)
  let step1 : StepEntry :=
    { step := "security-set-pass",
      cmd := some (String.intercalate " " (set_pass_cmd password device)),
      returncode := some cp1.returncode, stderr := some cp1.stderr }
  if !(cp1.returncode = 0) then
    { device := device, method := "ata-secure-erase", steps := [step1],
      success := false, error := some "Failed to set security password" }
  else
    let cp2 := run (security_erase_cmd password device)
    let step2 : StepEntry :=
      { step := "security-erase",
        cmd := some (String.intercalate " " (security_erase_cmd password device)),
        returncode := some cp2.returncode, stderr := some cp2.stderr }
    if !(cp2.returncode = 0) then
      { device := device, method := "ata-secure-erase", steps := [step1, step2],
        success := false, error := some "Security erase command failed" }
    else
      { device := device, method := "ata-secure-erase", steps := [step1, step2],
        success := true }

/-- The dry-run `method_result` literal of `do_wipe` (lines 223–234). -/
def dry_run_result (device method : String) : MethodResult :=
  { device := device, method := method, dry_run := some true,
    steps := [{ step := "security-set-pass", simulated := some true },
              { step := "security-erase", simulated := some true }],
    success := true }

/-- The method dispatch of `do_wipe` (lines 222–239): the `ata-secure-erase`
method runs the dry-run literal or the real driver; any other method is a
process exit (`none`). -/
def method_result_of (run : List String → CmdResult) (device method : String)
    (dry_run : Bool) : Option MethodResult :=
  if method = "ata-secure-erase" then
    some (if dry_run then dry_run_result device method
          else ata_secure_erase run device "p")
  else none

/-! ## Integrity sampler and session record (`wipe_drive.py`) -/

/-- `sample_hash(device, num_bytes)` (lines 111–135).  `digest` models
sha256 over the bytes actually read; `device_bytes` is the device content
(`none` = the read raises, the warning path returning `None`).  The chunked
read loop consumes the first `num_bytes` bytes, stopping early at end of
device, so it digests the first `min(length, num_bytes)` bytes. -/
def sample_hash (digest : List UInt8 → String)
    (device_bytes : Option (List UInt8)) (num_bytes : Int) : Option String :=
  if num_bytes ≤ 0 then none
  else
    match device_bytes with
    | none => none
    | some bs => some (digest (bs.take num_bytes.toNat))

/-- One entry of `list_drives()` as `do_wipe` stores it in `device_info`. -/
structure DeviceInfo where
  name : Option String := none
  path : String
  size : Option String := none
  model : Option String := none
  serial : Option String := none
  transport : Option String := none
deriving DecidableEq

/-- The session record `do_wipe` assembles (lines 247–263). -/
structure WipeRecord where
  device : String
  method : String
  dry_run : Bool
  operator : Option String
  session_id : Option String
  started_at : String
  ended_at : String
  pre_sample_bytes : Int
  pre_sample_hash : Option String
  post_sample_hash : Option String
  device_info : Option DeviceInfo
  hdparm_before : Option HdparmData
  hdparm_after : Option HdparmData
  method_result : MethodResult
  result : String
deriving DecidableEq

/-- The record assembly of `do_wipe` (lines 217, 244, 247–263).
`pre_sample` and `post_sample` are what `sample_hash(device, sample_bytes)`
would return on each side; the `if sample_bytes > 0` guards are the
conditional expressions of lines 217 and 244, so a non-positive
`sample_bytes` never invokes the sampler.  `result` is line 262. -/
def build_wipe_record (device method : String) (dry_run : Bool)
    (operator session_id : Option String) (started_at ended_at : String)
    (sample_bytes : Int) (pre_sample post_sample : Option String)
    (dev_info : Option DeviceInfo) (hdparm_before hdparm_after : Option HdparmData)
    (mr : MethodResult) : WipeRecord :=
  { device := device, method := method, dry_run := dry_run,
    operator := operator, session_id := session_id,
    started_at := started_at, ended_at := ended_at,
    pre_sample_bytes := if sample_bytes > 0 then sample_bytes else 0,
    pre_sample_hash := if sample_bytes > 0 then pre_sample else none,
    post_sample_hash := if sample_bytes > 0 then post_sample else none,
    device_info := dev_info, hdparm_before := hdparm_before,
    hdparm_after := hdparm_after, method_result := mr,
    result := if mr.success then "PASS" else "FAIL" }

/-! ## Theorems -/

/-- Neither the identity-field updates nor the size update touch `raw`. -/
theorem parseIdentityFields_raw (d : HdparmData) (stripped : String) :
    (parseIdentityFields d stripped).raw = d.raw := by
  dsimp only [parseIdentityFields]
  split_ifs <;> rfl

/-- The security-block updates never touch `raw`. -/
theorem parseSecurityFields_raw (d : HdparmData) (stripped : String) :
    (parseSecurityFields d stripped).raw = d.raw := by
  dsimp only [parseSecurityFields]
  split_ifs <;> rfl

/-- One parser step never changes the `raw` field of the record. -/
theorem parseHdparmLine_raw (st : ParseState) (line : String) :
    (parseHdparmLine st line).data.raw = st.data.raw := by
  dsimp only [parseHdparmLine]
  split_ifs <;>
    simp only [parseSecurityFields_raw, parseIdentityFields_raw]

/-- The whole line fold never changes the `raw` field. -/
theorem parseFold_raw (lines : List String) (st : ParseState) :
    (lines.foldl parseHdparmLine st).data.raw = st.data.raw := by
  induction lines generalizing st with
  | nil => rfl
  | cons l ls ih => rw [List.foldl_cons, ih, parseHdparmLine_raw]

/-- C5: for every input string, the identity parser is a total function
(the embedded `parse_hdparm_identity` returns a record on all inputs, as
the source never raises: every operation it performs is a total string or
dict operation), and the returned record's `raw` field is the original
input text unchanged. -/
theorem C5_parser_total_and_raw_unchanged (text : String) :
    (parse_hdparm_identity text).raw = text := by
  unfold parse_hdparm_identity
  rw [parseFold_raw]
  rfl

/-- C6 counterexample: on the input `"Security:\n   supported\n  not enabled\n"`
the claim fails: the parser does set `security_supported = true`, but the
line `not enabled` does not satisfy the `lower.startswith("enabled")` rule,
so the `security_enabled` key is never written — the record does not hold
`security_enabled = false`. -/
theorem C6_counterexample :
    ¬ ((parse_hdparm_identity "Security:\n   supported\n  not enabled\n").security_supported
          = some true ∧
       (parse_hdparm_identity "Security:\n   supported\n  not enabled\n").security_enabled
          = some false) := by
  decide

/-- C6 amended: for the input text `"Security:\n   supported\n  not enabled\n"`
the parsed record has `security_supported = true` while `security_enabled`
is absent (the `enabled` flag rule is a prefix check, which the line
`not enabled` does not match). -/
theorem C6_amended_security_scenario :
    (parse_hdparm_identity "Security:\n   supported\n  not enabled\n").security_supported
        = some true ∧
    (parse_hdparm_identity "Security:\n   supported\n  not enabled\n").security_enabled
        = none := by
  decide

/-- C8 counterexample: the parser does re-enter security-block mode.  On
`"Security:\nX\nSecurity:\n frozen"` the `in_security` trace is
`[false, true, false, true, true]`: the non-indented non-blank line `X`
leaves the block, and the second `Security:` header re-enters it (the
header check at line 35 of `hdparm_parser.py` runs on every line). -/
theorem C8_counterexample :
    securityReentered "Security:\nX\nSecurity:\n frozen" :=
  ⟨1, 2, 3, by decide, by decide, by decide, by decide, by decide⟩

/-- C8 amended: after leaving security-block mode the parser re-enters it
exactly when a later line whose stripped text starts with `Security:`
appears: processing such a line puts the parser in security-block mode
whatever its current state. -/
theorem C8_amended_header_reenters_block (st : ParseState) (line : String)
    (h : pyStartsWith (pyStrip line) "Security:" = true) :
    (parseHdparmLine st line).in_security = true := by
  dsimp only [parseHdparmLine]
  simp [h]

/-- Witness for the amended C8 theorem at the concrete line `"Security:"`. -/
theorem C8_amended_witness :
    (parseHdparmLine ⟨{ raw := "" }, false⟩ "Security:").in_security = true :=
  C8_amended_header_reenters_block ⟨{ raw := "" }, false⟩ "Security:" (by decide)

/-- Inside the security block, when both the `supported` and the
`enhanced erase` substring checks match, both flags are written and get
the same value. -/
theorem parseSecurityFields_both_supported (d : HdparmData) (stripped : String)
    (h1 : pyContains (pyLower stripped) "supported" = true)
    (h2 : pyContains (pyLower stripped) "enhanced erase" = true) :
    (parseSecurityFields d stripped).security_supported
        = some (!(pyContains (pyLower stripped) "not")) ∧
    (parseSecurityFields d stripped).enhanced_erase_supported
        = some (!(pyContains (pyLower stripped) "not")) := by
  dsimp only [parseSecurityFields]
  simp only [h1, h2]
  split_ifs <;> simp_all

/-- C10: the `supported` substring check applies to every security-block
line, not only to lines outside the other rules: a security-block line
(indented, not a new `Security:` header) whose lowered text contains both
`enhanced erase` and `supported` sets `security_supported` and
`enhanced_erase_supported`, and both receive the same value, true iff the
line does not contain `not`. -/
theorem C10_enhanced_line_sets_both_flags (st : ParseState) (line : String)
    (hin : st.in_security = true)
    (hind : pyStartsWith line " " = true ∨ pyStartsWith line "\t" = true)
    (hsec : pyStartsWith (pyStrip line) "Security:" = false)
    (h1 : pyContains (pyLower (pyStrip line)) "supported" = true)
    (h2 : pyContains (pyLower (pyStrip line)) "enhanced erase" = true) :
    (parseHdparmLine st line).data.security_supported
        = some (!(pyContains (pyLower (pyStrip line)) "not")) ∧
    (parseHdparmLine st line).data.enhanced_erase_supported
        = some (!(pyContains (pyLower (pyStrip line)) "not")) := by
  have hOr : (pyStartsWith line " " || pyStartsWith line "\t") = true := by
    rcases hind with h | h <;> simp [h]
  dsimp only [parseHdparmLine]
  simp only [hsec, hin, hOr, Bool.false_eq_true, if_false, if_true,
    Bool.or_true, Bool.not_true, Bool.and_false]
  exact parseSecurityFields_both_supported _ _ h1 h2

/-- Witness for C10 at the concrete line `"   enhanced erase supported"`
inside the security block. -/
theorem C10_witness :
    (parseHdparmLine ⟨{ raw := "" }, true⟩ "   enhanced erase supported").data.security_supported
        = some true ∧
    (parseHdparmLine ⟨{ raw := "" }, true⟩ "   enhanced erase supported").data.enhanced_erase_supported
        = some true := by
  have h := C10_enhanced_line_sets_both_flags ⟨{ raw := "" }, true⟩
    "   enhanced erase supported" rfl (Or.inl (by decide)) (by decide) (by decide) (by decide)
  have e : (!(pyContains (pyLower (pyStrip "   enhanced erase supported")) "not")) = true := by
    decide
  rw [e] at h
  exact h

/-- C1: `log_wipe_event` never raises — the embedded persist is a total
function whose effect trace covers every case: when the latch is set, the
database is enabled and the insert succeeds, the trace is exactly one
database insert (no file write); when the database attempt raises, or the
database path is skipped, the record is appended to the fallback file; and
when that file append itself raises, the full session content is emitted
to the console and the call still returns (with a trace, on every path). -/
theorem C1_persist_routing {α : Type} (event : α) (db_enabled use_db : Bool)
    (env : CallEnv) :
    ((use_db && db_enabled && env.db_ok) = true →
      (log_wipe_event db_enabled env event use_db).2 = [LogEffect.dbInsert event]) ∧
    ((use_db && db_enabled) = true → env.db_ok = false →
      LogEffect.fileAppend event ∈ (log_wipe_event db_enabled env event use_db).2) ∧
    ((use_db && db_enabled) = false →
      LogEffect.fileAppend event ∈ (log_wipe_event db_enabled env event use_db).2) ∧
    (env.file_ok = false → (use_db && db_enabled && env.db_ok) = false →
      LogEffect.consoleEmit event ∈ (log_wipe_event db_enabled env event use_db).2) := by
  rcases env with ⟨dbok, fok⟩
  cases use_db <;> cases db_enabled <;> cases dbok <;> cases fok <;>
    simp [log_wipe_event]

/-- Witness for C1: healthy database, enabled, latch set — the trace is
exactly one database insert. -/
theorem C1_witness :
    (log_wipe_event true ⟨true, true⟩ "session" true).2
      = [LogEffect.dbInsert "session"] :=
  (C1_persist_routing "session" true true ⟨true, true⟩).1 rfl

/-- A call entered with the latch already cleared leaves it cleared. -/
theorem persistLatch_false (db_enabled : Bool) (env : CallEnv) :
    persistLatch db_enabled false env = false := by
  rcases env with ⟨dbok, fok⟩
  cases db_enabled <;> cases dbok <;> cases fok <;> rfl

/-- Any sequence of calls entered with the latch cleared ends with it
cleared. -/
theorem foldl_persistLatch_false (db_enabled : Bool) (envs : List CallEnv) :
    envs.foldl (persistLatch db_enabled) false = false := by
  induction envs with
  | nil => rfl
  | cons e es ih => rw [List.foldl_cons, persistLatch_false]; exact ih

/-- C2: the process-wide latch `_use_db` starts true; it is cleared by the
first call in which a database write raises; a call never turns it from
false back to true; and once it is false every persist call appends to the
file backend and never attempts the database — for every collaborator
behaviour, so even if the database would succeed — and it stays false over
any further sequence of calls. -/
theorem C2_latch_one_way {α : Type} (event : α) (db_enabled use_db : Bool)
    (env : CallEnv) :
    init_use_db = true ∧
    (use_db = true → db_enabled = true → env.db_ok = false →
      (log_wipe_event db_enabled env event use_db).1 = false) ∧
    ((log_wipe_event db_enabled env event use_db).1 = true → use_db = true) ∧
    (use_db = false →
      LogEffect.dbInsert event ∉ (log_wipe_event db_enabled env event use_db).2 ∧
      LogEffect.fileAppend event ∈ (log_wipe_event db_enabled env event use_db).2) ∧
    (∀ envs : List CallEnv, envs.foldl (persistLatch db_enabled) false = false) := by
  refine ⟨rfl, ?_, ?_, ?_, foldl_persistLatch_false db_enabled⟩ <;>
    rcases env with ⟨dbok, fok⟩ <;>
    cases use_db <;> cases db_enabled <;> cases dbok <;> cases fok <;>
    simp [log_wipe_event]

/-- Witness for C2: enabled database whose write raises clears the latch. -/
theorem C2_witness :
    (log_wipe_event true ⟨false, true⟩ "session" true).1 = false :=
  (C2_latch_one_way "session" true true ⟨false, true⟩).2.1 rfl rfl rfl

/-- C3: the real erase driver runs `security-set-pass` first and attempts
`security-erase` iff the first step exited zero; `success` is true iff
both steps exited zero; and on failure `error` distinguishes the
password-set failure from the erase-command failure. -/
theorem C3_ata_secure_erase_contract (run : List String → CmdResult)
    (device password : String) :
    ((ata_secure_erase run device password).steps.map StepEntry.step =
      if (run (set_pass_cmd password device)).returncode = 0 then
        ["security-set-pass", "security-erase"]
      else ["security-set-pass"]) ∧
    ((ata_secure_erase run device password).success = true ↔
      ((run (set_pass_cmd password device)).returncode = 0 ∧
       (run (security_erase_cmd password device)).returncode = 0)) ∧
    ((ata_secure_erase run device password).error =
      if (run (set_pass_cmd password device)).returncode ≠ 0 then
        some "Failed to set security password"
      else if (run (security_erase_cmd password device)).returncode ≠ 0 then
        some "Security erase command failed"
      else none) := by
  by_cases h1 : (run (set_pass_cmd password device)).returncode = 0
  · by_cases h2 : (run (security_erase_cmd password device)).returncode = 0 <;>
      simp [ata_secure_erase, h1, h2]
  · simp [ata_secure_erase, h1]

/-- C4: the session record's `result` field is `"PASS"` iff the erase
outcome's `success` flag is true, and `"FAIL"` iff it is false. -/
theorem C4_result_pass_iff_success (device method : String) (dry_run : Bool)
    (operator session_id : Option String) (started_at ended_at : String)
    (sample_bytes : Int) (pre_sample post_sample : Option String)
    (dev_info : Option DeviceInfo) (hb ha : Option HdparmData)
    (mr : MethodResult) :
    ((build_wipe_record device method dry_run operator session_id started_at
        ended_at sample_bytes pre_sample post_sample dev_info hb ha mr).result
        = "PASS" ↔ mr.success = true) ∧
    ((build_wipe_record device method dry_run operator session_id started_at
        ended_at sample_bytes pre_sample post_sample dev_info hb ha mr).result
        = "FAIL" ↔ mr.success = false) := by
  cases h : mr.success <;> simp [build_wipe_record, h]

/-- Witness for C4 at a concrete session: the dry-run outcome has
`success = true` and the record's `result` is `"PASS"`. -/
theorem C4_witness :
    ((build_wipe_record "/dev/sdx" "ata-secure-erase" true none none "" "" 0
        none none none none none
        (dry_run_result "/dev/sdx" "ata-secure-erase")).result = "PASS" ↔
      (dry_run_result "/dev/sdx" "ata-secure-erase").success = true) ∧
    ((build_wipe_record "/dev/sdx" "ata-secure-erase" true none none "" "" 0
        none none none none none
        (dry_run_result "/dev/sdx" "ata-secure-erase")).result = "FAIL" ↔
      (dry_run_result "/dev/sdx" "ata-secure-erase").success = false) :=
  C4_result_pass_iff_success "/dev/sdx" "ata-secure-erase" true none none "" "" 0
    none none none none none (dry_run_result "/dev/sdx" "ata-secure-erase")

/-- C7 counterexample: the dry-run outcome is not indistinguishable in
shape from a (successful) real erase outcome up to dry-run markers.  After
deleting every `dry_run`/`simulated` marker key, a simulated step entry
still holds only the key `step`, while a real step entry holds `step`,
`cmd`, `returncode`, `stderr`: the nested step dicts differ in shape
beyond the markers. -/
theorem C7_counterexample :
    ((dry_run_result "/dev/sdx" "ata-secure-erase").steps.map fun s =>
        (StepEntry.keys s).filter (fun k => !(k == "simulated" || k == "dry_run"))) ≠
    ((ata_secure_erase (fun _ => { returncode := 0, stderr := "" })
        "/dev/sdx" "p").steps.map fun s =>
        (StepEntry.keys s).filter (fun k => !(k == "simulated" || k == "dry_run"))) := by
  decide

/-- C7 amended: for every device, the dry-run erase path performs no
destructive command (its outcome is the same for every process-execution
collaborator), produces an outcome with exactly two step entries both
marked simulated and `success = true`, so the session record's result is
`"PASS"`; the outcome's top-level dict shape equals that of a successful
real erase outcome except for the explicit `dry_run` marker key; the step
entries themselves, however, carry only the step name and the simulated
marker, not the `cmd`/`returncode`/`stderr` fields of real step entries. -/
theorem C7_dry_run_outcome (device password : String)
    (run : List String → CmdResult)
    (h : (ata_secure_erase run device password).success = true)
    (operator session_id : Option String) (started_at ended_at : String)
    (sample_bytes : Int) (pre_sample post_sample : Option String)
    (dev_info : Option DeviceInfo) (hb ha : Option HdparmData) :
    (dry_run_result device "ata-secure-erase").steps =
      [{ step := "security-set-pass", simulated := some true },
       { step := "security-erase", simulated := some true }] ∧
    (dry_run_result device "ata-secure-erase").success = true ∧
    (∀ run2 : List String → CmdResult,
      method_result_of run2 device "ata-secure-erase" true =
        some (dry_run_result device "ata-secure-erase")) ∧
    (build_wipe_record device "ata-secure-erase" true operator session_id
        started_at ended_at sample_bytes pre_sample post_sample dev_info hb ha
        (dry_run_result device "ata-secure-erase")).result = "PASS" ∧
    (dry_run_result device "ata-secure-erase").keys =
      ["device", "method", "dry_run", "steps", "success"] ∧
    (ata_secure_erase run device password).keys =
      ["device", "method", "steps", "success"] ∧
    ((dry_run_result device "ata-secure-erase").keys.filter
        (fun k => !(k == "dry_run"))) = (ata_secure_erase run device password).keys := by
  by_cases h1 : (run (set_pass_cmd password device)).returncode = 0
  · by_cases h2 : (run (security_erase_cmd password device)).returncode = 0
    · refine ⟨rfl, rfl, fun run2 => ?_, ?_, ?_, ?_, ?_⟩ <;>
        simp [method_result_of, dry_run_result, build_wipe_record,
          MethodResult.keys, StepEntry.keys, ata_secure_erase, h1, h2]
    · exact absurd h (by simp [ata_secure_erase, h1, h2])
  · exact absurd h (by simp [ata_secure_erase, h1])

/-- Witness for C7 at device `/dev/sdx` with an all-zero process execution
collaborator: the dry-run outcome reports success. -/
theorem C7_witness :
    (dry_run_result "/dev/sdx" "ata-secure-erase").success = true :=
  (C7_dry_run_outcome "/dev/sdx" "p" (fun _ => { returncode := 0, stderr := "" })
    (by decide) none none "" "" 1048576 none none none none none).2.1

/-- C9: for a negative `sample_bytes`, `sample_hash` returns `None` (its
guard), `do_wipe` never invokes the sampler (the guards of lines 217 and
244 discard the oracle results `pre_sample`/`post_sample`, which are
universally quantified here), both hash fields of the record are absent,
and the recorded `pre_sample_bytes` is `0`, not the negative input. -/
theorem C9_negative_sample_bytes (sample_bytes : Int) (h : sample_bytes < 0)
    (digest : List UInt8 → String) (device_bytes : Option (List UInt8))
    (device method : String) (dry_run : Bool) (operator session_id : Option String)
    (started_at ended_at : String) (pre_sample post_sample : Option String)
    (dev_info : Option DeviceInfo) (hb ha : Option HdparmData)
    (mr : MethodResult) :
    sample_hash digest device_bytes sample_bytes = none ∧
    (build_wipe_record device method dry_run operator session_id started_at
        ended_at sample_bytes pre_sample post_sample dev_info hb ha
        mr).pre_sample_hash = none ∧
    (build_wipe_record device method dry_run operator session_id started_at
        ended_at sample_bytes pre_sample post_sample dev_info hb ha
        mr).post_sample_hash = none ∧
    (build_wipe_record device method dry_run operator session_id started_at
        ended_at sample_bytes pre_sample post_sample dev_info hb ha
        mr).pre_sample_bytes = 0 := by
  have hle : sample_bytes ≤ 0 := le_of_lt h
  have hng : ¬ sample_bytes > 0 := not_lt.mpr hle
  refine ⟨?_, ?_, ?_, ?_⟩ <;> simp [sample_hash, build_wipe_record, hle, hng]

/-- Witness for C9 at `sample_bytes = -1` with concrete oracles. -/
theorem C9_witness :
    sample_hash (fun _ => "") none (-1) = none ∧
    (build_wipe_record "/dev/sdx" "ata-secure-erase" false none none "" "" (-1)
        (some "h1") (some "h2") none none none
        (dry_run_result "/dev/sdx" "ata-secure-erase")).pre_sample_hash = none ∧
    (build_wipe_record "/dev/sdx" "ata-secure-erase" false none none "" "" (-1)
        (some "h1") (some "h2") none none none
        (dry_run_result "/dev/sdx" "ata-secure-erase")).post_sample_hash = none ∧
    (build_wipe_record "/dev/sdx" "ata-secure-erase" false none none "" "" (-1)
        (some "h1") (some "h2") none none none
        (dry_run_result "/dev/sdx" "ata-secure-erase")).pre_sample_bytes = 0 :=
  C9_negative_sample_bytes (-1) (by decide) (fun _ => "") none "/dev/sdx"
    "ata-secure-erase" false none none "" "" (some "h1") (some "h2") none none none
    (dry_run_result "/dev/sdx" "ata-secure-erase")
